import Mathlib

/-!
Shallow embedding of the WhatsApp-to-MPesa Microstore backend
(`src/main.py`, `src/schemas.py`).

Modelling conventions:
* Python `float` prices/totals are modelled as exact rationals (`ℚ`);
  Python's `round(x, 2)` is modelled as rounding to the nearest multiple
  of 1/100 (`round2`).  None of the verified properties hits a tie, so
  the tie-breaking rule is immaterial here.
* MongoDB collections are modelled as association lists `List (String × α)`
  keyed by generated identifiers; identifier generation (`ObjectId`) is an
  opaque counter rendered as a decimal string.
* The DocumentStore layer (`database.py`: `create_document`, `get_documents`)
  is not part of `src/`; those operations are modelled from the spec, §4.1.
* `pymongo`'s `find_one` returns the first matching document,
  `update_one` updates the first matching document, `insert_one` appends.
* HTTP failures (`HTTPException`, pydantic validation errors raised while
  handling a request) are modelled with `Except Err`.
-/

namespace Microstore

/-- Error taxonomy: `httpError` models `HTTPException(status_code, detail)`;
`modelValidationError` models a pydantic `ValidationError` raised while
constructing a schema object inside a handler (surfaces as a 500);
`requestValidationError` models FastAPI rejecting a request that violates
the pydantic request schema (a 422); `sinkFailure` models an exception
raised by the notification collection write. -/
inductive Err where
  | httpError (status : Nat) (detail : String)
  | modelValidationError (detail : String)
  | requestValidationError (detail : String)
  | sinkFailure
  deriving DecidableEq, Repr

/-- schemas.py `Seller`. -/
structure Seller where
  name : String
  email : Option String
  phone : String
  whatsapp_number : Option String
  password : Option String := none
  deriving DecidableEq, Repr

/-- schemas.py `Store`. -/
structure Store where
  owner_id : String
  name : String
  slug : String
  description : Option String
  whatsapp_number : Option String
  mpesa_paybill : Option String := none
  deriving DecidableEq, Repr

/-- schemas.py `Product`.  The pydantic constraint `price ≥ 0` is enforced
by `mkProduct` below, as pydantic enforces it at construction time. -/
structure Product where
  store_slug : String
  name : String
  price : ℚ
  description : Option String
  image_url : Option String
  is_active : Bool := true
  deriving DecidableEq, Repr

/-- schemas.py `OrderItem`.  The pydantic constraint `quantity ≥ 1` is
enforced at request-parse time (`validateCheckoutRequest`). -/
structure OrderItem where
  product_id : String
  name : String
  price : ℚ
  quantity : ℤ
  deriving DecidableEq, Repr

/-- schemas.py `CustomerInfo`. -/
structure CustomerInfo where
  name : Option String := none
  phone : String
  deriving DecidableEq, Repr

/-- schemas.py `Order`.  `mpesa` is a mapping of gateway metadata,
modelled as an association list. -/
structure Order where
  store_slug : String
  items : List OrderItem
  total : ℚ
  customer : CustomerInfo
  status : String
  mpesa : List (String × String)
  deriving DecidableEq, Repr

/-- A persisted notification document (main.py checkout, lines 170-175). -/
structure Notification where
  type : String
  store_slug : String
  order_id : String
  message : String
  deriving DecidableEq, Repr

/-- The database state: one association list per collection, plus the
counter from which fresh identifiers are generated. -/
structure DB where
  sellers : List (String × Seller) := []
  stores : List (String × Store) := []
  products : List (String × Product) := []
  orders : List (String × Order) := []
  notifications : List Notification := []
  nextId : Nat := 0
  deriving DecidableEq, Repr

/-- The identifier a `create_document` call performed on `db` generates. -/
def DB.freshId (db : DB) : String := toString db.nextId

/-- Python `round(x, 2)`: rounding to 2 decimal places, modelled on exact
rationals as rounding to the nearest multiple of 1/100. -/
def round2 (q : ℚ) : ℚ := (round (q * 100) : ℤ) / 100

/-- Python truthiness of an `Optional[str]`: `None` and `""` are falsy. -/
def optTruthy : Option String → Bool
  | none => false
  | some s => s ≠ ""

/-- Python `a or b` on `Optional[str]` operands. -/
def pyOr (a b : Option String) : Option String :=
  if optTruthy a then a else b

/-- Python `str.lower()` on one character, modelled for ASCII (all strings
the source lowercases are ASCII slugs). -/
def lowerChar (c : Char) : Char :=
  if c.isUpper then Char.ofNat (c.toNat + 32) else c

/-- Python `str.lower()`, modelled for ASCII. -/
def lowerStr (s : String) : String := String.mk (s.data.map lowerChar)

/-- Modelled from the spec: `database.py` (not under `src/`) provides
`create_document(collection, document) -> id`; per spec §4.1 it inserts the
document into the named collection under a freshly generated identifier.
The identifier is `DB.freshId` and the caller bumps `nextId`. -/
def create_document (coll : List (String × α)) (id : String) (doc : α) :
    List (String × α) :=
  coll ++ [(id, doc)]

/-- pymongo `find_one(filter)`: first document matching the filter,
or absent. -/
def findOne (coll : List (String × α)) (flt : String × α → Bool) :
    Option (String × α) :=
  coll.find? flt

/-- main.py `ensure_unique_slug` (lines 30-33): raises 400 "Store slug
already exists" when a store document matches `{"slug": slug}`.  Note: the
filter uses the slug exactly as given, NOT lowercased, while stores are
persisted with lowercased slugs. -/
def ensure_unique_slug (db : DB) (slug : String) : Except Err Unit :=
  match findOne db.stores (fun kv => kv.2.slug == slug) with
  | some _ => .error (.httpError 400 "Store slug already exists")
  | none => .ok ()

/-- main.py `SignupRequest`. -/
structure SignupRequest where
  name : String
  phone : String
  email : Option String := none
  whatsapp_number : Option String := none
  deriving DecidableEq, Repr

/-- main.py `signup` (lines 47-56).  (`Seller.email` is `EmailStr` in
schemas.py; email-format validation is not modelled — no claim depends on
it.)  Returns the `seller_id` of the response. -/
def signup (db : DB) (p : SignupRequest) : Except Err String × DB :=
  let seller : Seller :=
    { name := p.name, phone := p.phone, email := p.email,
      whatsapp_number := p.whatsapp_number }
  (.ok db.freshId,
   { db with sellers := create_document db.sellers db.freshId seller,
             nextId := db.nextId + 1 })

/-- main.py `CreateStoreRequest`. -/
structure CreateStoreRequest where
  owner_id : String
  name : String
  slug : String
  description : Option String := none
  whatsapp_number : Option String := none
  deriving DecidableEq, Repr

/-- main.py `create_store` (lines 71-87): first `ensure_unique_slug` on the
raw payload slug, then owner lookup by id (404 "Owner not found" when
absent; the `to_object_id` format check is not modelled — identifiers are
opaque counter strings here), then persists a `Store` with lowercased slug
and `whatsapp_number = payload.whatsapp_number or owner.whatsapp_number or
owner.phone` (Python `or`, so empty strings are skipped). -/
def create_store (db : DB) (p : CreateStoreRequest) : Except Err String × DB :=
  match ensure_unique_slug db p.slug with
  | .error e => (.error e, db)
  | .ok _ =>
    match findOne db.sellers (fun kv => kv.1 == p.owner_id) with
    | none => (.error (.httpError 404 "Owner not found"), db)
    | some (_, owner) =>
      let store : Store :=
        { owner_id := p.owner_id, name := p.name, slug := lowerStr p.slug,
          description := p.description,
          whatsapp_number :=
            pyOr p.whatsapp_number
              (pyOr owner.whatsapp_number (some owner.phone)) }
      (.ok db.freshId,
       { db with stores := create_document db.stores db.freshId store,
                 nextId := db.nextId + 1 })

/-- main.py `get_store` (lines 90-96): lookup by lowercased slug,
404 "Store not found" when absent. -/
def get_store (db : DB) (slug : String) : Except Err (String × Store) :=
  match findOne db.stores (fun kv => kv.2.slug == lowerStr slug) with
  | none => .error (.httpError 404 "Store not found")
  | some kv => .ok kv

/-- schemas.py `Product` construction: pydantic enforces `price ≥ 0`
(`Field(..., ge=0)`) when the model is instantiated, raising a
`ValidationError` inside the handler otherwise. -/
def mkProduct (store_slug name : String) (price : ℚ)
    (description image_url : Option String) : Except Err Product :=
  if price < 0 then
    .error (.modelValidationError "price must be greater than or equal to 0")
  else
    .ok { store_slug := store_slug, name := name, price := price,
          description := description, image_url := image_url,
          is_active := true }

/-- main.py `CreateProductRequest`. -/
structure CreateProductRequest where
  store_slug : String
  name : String
  price : ℚ
  description : Option String := none
  image_url : Option String := none
  deriving DecidableEq, Repr

/-- main.py `create_product` (lines 111-126): store lookup by lowercased
slug (404 "Store not found" when absent), then constructs and persists the
`Product` with lowercased `store_slug` and default `is_active = true`. -/
def create_product (db : DB) (p : CreateProductRequest) :
    Except Err String × DB :=
  match findOne db.stores (fun kv => kv.2.slug == lowerStr p.store_slug) with
  | none => (.error (.httpError 404 "Store not found"), db)
  | some _ =>
    match mkProduct (lowerStr p.store_slug) p.name p.price
        p.description p.image_url with
    | .error e => (.error e, db)
    | .ok prod =>
      (.ok db.freshId,
       { db with products := create_document db.products db.freshId prod,
                 nextId := db.nextId + 1 })

/-- Modelled from the spec: `database.py`'s
`get_documents("product", filter)` (not under `src/`); per spec §4.1,
`findMany` returns the documents matching an equality-conjunction filter.
Specialised to the only filter the source uses:
`{"store_slug": slug, "is_active": active}`. -/
def get_documents_product (db : DB) (slug : String) (active : Bool) :
    List Product :=
  (db.products.filter
    (fun kv => kv.2.store_slug == slug && kv.2.is_active == active)).map
    Prod.snd

/-- main.py `list_products` (lines 129-134): returns the product documents
matching `{"store_slug": store_slug.lower(), "is_active": True}`; no store
existence check, never an error. -/
def list_products (db : DB) (store_slug : String) : List Product :=
  get_documents_product db (lowerStr store_slug) true

/-- main.py `CheckoutRequest`. -/
structure CheckoutRequest where
  store_slug : String
  items : List OrderItem
  customer : CustomerInfo
  deriving DecidableEq, Repr

/-- pydantic request validation of one `OrderItem`:
`quantity: int = Field(..., ge=1)` (schemas.py line 36).  `price` carries
no constraint. -/
def validItem (it : OrderItem) : Bool := 1 ≤ it.quantity

/-- FastAPI parses `CheckoutRequest` before the handler runs: every item
must satisfy the pydantic constraints, else the request is rejected. -/
def validateCheckoutRequest (p : CheckoutRequest) : Bool :=
  p.items.all validItem

/-- main.py checkout lines 151-153: `total = 0.0; for item in items:
total += item.price * item.quantity`. -/
def orderTotalRaw (items : List OrderItem) : ℚ :=
  items.foldl (fun acc it => acc + it.price * (it.quantity : ℚ)) 0

/-- main.py checkout lines 155-162: the `Order` as first persisted. -/
def mkPendingOrder (p : CheckoutRequest) : Order :=
  { store_slug := lowerStr p.store_slug, items := p.items,
    total := round2 (orderTotalRaw p.items), customer := p.customer,
    status := "pending", mpesa := [] }

/-- main.py checkout line 167: the `$set` document of the mocked gateway
success update. -/
def setPaid (o : Order) : Order :=
  { o with status := "paid", mpesa := [("status", "success")] }

/-- pymongo `update_one({"_id": id}, {"$set": ...})`: updates the first
document whose key matches (at most one document). -/
def updateFirstOrder : List (String × Order) → String → (Order → Order) →
    List (String × Order)
  | [], _, _ => []
  | kv :: rest, id, f =>
    if kv.1 == id then (kv.1, f kv.2) :: rest
    else kv :: updateFirstOrder rest id f

/-- Decimal rendering of a rational; the exact formatting of the Python
float in the notification message is abstracted (no claim depends on it). -/
def ratText (q : ℚ) : String := toString q.num ++ "/" ++ toString q.den

/-- main.py checkout lines 170-175: the notification document text. -/
def notificationMessage (p : CheckoutRequest) (total : ℚ) : String :=
  "New order paid: " ++ toString p.items.length ++ " items, KES " ++
    ratText (round2 total) ++ " from " ++ p.customer.phone

/-- main.py `checkout` (lines 148-177).  `sinkOk` abstracts whether the
notification-collection write (`db["notification"].insert_one`, line 170)
succeeds; the source does not guard it with try/except, so when it raises,
the exception propagates out of the handler after the order has already
been persisted and updated to paid.  The mocked gateway always succeeds
(line 167).  Returns `(order_id, status)` of the `CheckoutResponse`. -/
def checkout (sinkOk : Bool) (db : DB) (p : CheckoutRequest) :
    Except Err (String × String) × DB :=
  let order := mkPendingOrder p
  let oid := db.freshId
  let db1 := { db with orders := create_document db.orders oid order,
                       nextId := db.nextId + 1 }
  let db2 := { db1 with orders := updateFirstOrder db1.orders oid setPaid }
  if sinkOk then
    let note : Notification :=
      { type := "whatsapp", store_slug := lowerStr p.store_slug,
        order_id := oid,
        message := notificationMessage p (orderTotalRaw p.items) }
    (.ok (oid, "paid"),
     { db2 with notifications := db2.notifications ++ [note] })
  else
    (.error .sinkFailure, db2)

/-- `POST /api/checkout` as seen by a client: FastAPI request validation
(pydantic constraints on the payload), then the `checkout` handler. -/
def checkoutEndpoint (sinkOk : Bool) (db : DB) (p : CheckoutRequest) :
    Except Err (String × String) × DB :=
  if validateCheckoutRequest p then checkout sinkOk db p
  else (.error (.requestValidationError
          "quantity must be greater than or equal to 1"), db)

/-- States reachable by the API generate identifiers from `nextId`, so no
persisted order already carries the next fresh identifier. -/
def DB.FreshOrderId (db : DB) : Prop :=
  ∀ kv ∈ db.orders, kv.1 ≠ db.freshId

instance (db : DB) : Decidable db.FreshOrderId := by
  unfold DB.FreshOrderId; infer_instance

end Microstore

deriving instance DecidableEq for Except

namespace Microstore

/-! ### Helper lemmas -/

/-- Updating the freshly appended order touches exactly that entry. -/
theorem updateFirstOrder_append_fresh (l : List (String × Order))
    (id : String) (o : Order) (f : Order → Order)
    (h : ∀ kv ∈ l, kv.1 ≠ id) :
    updateFirstOrder (l ++ [(id, o)]) id f = l ++ [(id, f o)] := by
  induction l with
  | nil => simp [updateFirstOrder]
  | cons kv rest ih =>
    have hkv : kv.1 ≠ id := h kv (List.mem_cons_self kv rest)
    simp only [List.cons_append, updateFirstOrder, beq_iff_eq, if_neg hkv,
      List.cons.injEq, true_and]
    exact ih (fun kv hm => h kv (List.mem_cons_of_mem _ hm))

/-- The order collection after `checkout`: the pre-existing orders, then the
new order, persisted as pending and updated in place to paid. -/
theorem checkout_orders (sinkOk : Bool) (db : DB) (p : CheckoutRequest)
    (h : db.FreshOrderId) :
    (checkout sinkOk db p).2.orders =
      db.orders ++ [(db.freshId, setPaid (mkPendingOrder p))] := by
  cases sinkOk <;>
    simp [checkout, create_document, updateFirstOrder_append_fresh _ _ _ _ h]

/-- `checkout` leaves the store collection untouched. -/
theorem checkout_stores (sinkOk : Bool) (db : DB) (p : CheckoutRequest) :
    (checkout sinkOk db p).2.stores = db.stores := by
  cases sinkOk <;> simp [checkout]

/-- The running-total loop of checkout computes the sum of the line
products. -/
theorem orderTotalRaw_eq_sum (items : List OrderItem) :
    orderTotalRaw items =
      (items.map (fun it => it.price * (it.quantity : ℚ))).sum := by
  have key : ∀ (l : List OrderItem) (a : ℚ),
      l.foldl (fun acc it => acc + it.price * (it.quantity : ℚ)) a =
        a + (l.map (fun it => it.price * (it.quantity : ℚ))).sum := by
    intro l
    induction l with
    | nil => intro a; simp
    | cons it rest ih =>
      intro a
      simp [List.foldl_cons, ih, add_assoc]
  simpa using key items 0

/-- Ground evaluation of the ASCII lowercasing used by the scenario. -/
theorem lowerStr_janeshop : lowerStr "jane-shop" = "jane-shop" := by decide

/-- Ground evaluation of the ASCII lowercasing of the mixed-case slug. -/
theorem lowerStr_JANESHOP : lowerStr "JANE-SHOP" = "jane-shop" := by decide

/-! ### The end-to-end scenario of spec §8

`signup("Jane","254700000000")` → `createStore(owner, "Jane Shop",
"jane-shop")` → `createProduct("jane-shop","Mandazi",20.0)` →
`checkout("JANE-SHOP", [{product_id, "Mandazi", 20.0, 3}],
{phone:"254711111111"})`, starting from an empty database. -/

/-- The scenario signup request. -/
def janeSignupReq : SignupRequest := { name := "Jane", phone := "254700000000" }

/-- State after the scenario signup on an empty database. -/
def janeDB1 : DB :=
  { sellers := [("0", { name := "Jane", email := none, phone := "254700000000",
                        whatsapp_number := none })],
    nextId := 1 }

/-- The scenario store-creation request. -/
def janeStoreReq : CreateStoreRequest :=
  { owner_id := "0", name := "Jane Shop", slug := "jane-shop" }

/-- The store the scenario persists: no explicit whatsapp number and no
owner whatsapp number, so the owner's phone is used. -/
def janeStore : Store :=
  { owner_id := "0", name := "Jane Shop", slug := "jane-shop",
    description := none, whatsapp_number := some "254700000000" }

/-- State after the scenario store creation. -/
def janeDB2 : DB := { janeDB1 with stores := [("1", janeStore)], nextId := 2 }

/-- The scenario product-creation request. -/
def janeProdReq : CreateProductRequest :=
  { store_slug := "jane-shop", name := "Mandazi", price := 20.0 }

/-- The product the scenario persists. -/
def mandazi : Product :=
  { store_slug := "jane-shop", name := "Mandazi", price := 20.0,
    description := none, image_url := none, is_active := true }

/-- State after the scenario product creation. -/
def janeDB3 : DB := { janeDB2 with products := [("2", mandazi)], nextId := 3 }

/-- The scenario checkout request, with the mixed-case store slug. -/
def janeCheckoutReq : CheckoutRequest :=
  { store_slug := "JANE-SHOP",
    items := [{ product_id := "2", name := "Mandazi", price := 20.0,
                quantity := 3 }],
    customer := { phone := "254711111111" } }

/-- Scenario step 1: the signup succeeds and persists the seller. -/
theorem signup_jane : signup {} janeSignupReq = (.ok "0", janeDB1) := by
  decide

/-- Scenario step 2: the store creation succeeds and persists the store
with the owner's phone as whatsapp number. -/
theorem create_store_jane :
    create_store janeDB1 janeStoreReq = (.ok "1", janeDB2) := by
  decide

/-- Scenario step 3: the product creation succeeds and persists the
product, active, under the store slug. -/
theorem create_product_jane :
    create_product janeDB2 janeProdReq = (.ok "2", janeDB3) := by
  norm_num [create_product, mkProduct, findOne, janeDB2, janeDB1, janeStore,
    janeProdReq, janeDB3, mandazi, lowerStr_janeshop, create_document,
    DB.freshId]
  all_goals decide

/-! ### Claims -/

/-- A second store-creation request whose slug is a case-variant of the
already persisted one. -/
def janeStoreReq2 : CreateStoreRequest :=
  { owner_id := "0", name := "Jane Shop 2", slug := "JANE-SHOP" }

/-- C1: the claim states that after `createStore(..., slug=s)` succeeds, a
second `createStore` with any case-variant of s fails with Duplicate, i.e.
that slug uniqueness is enforced on the lowercased slug.  The code violates
this: `ensure_unique_slug` filters on the slug exactly as submitted while
stores are persisted with lowercased slugs, so after a store with slug
"jane-shop" is persisted, a second `create_store` with the case-variant
"JANE-SHOP" finds no match, succeeds, and persists a second store whose
lowercased slug equals the first one's.  This theorem evaluates the code at
that failing input. -/
theorem C1_code_bug_eval :
    create_store janeDB1 janeStoreReq = (.ok "1", janeDB2) ∧
    (create_store janeDB2 janeStoreReq2).1 = .ok "2" ∧
    ((create_store janeDB2 janeStoreReq2).2.stores.map
      (fun kv => kv.2.slug)) = ["jane-shop", "jane-shop"] ∧
    lowerStr "JANE-SHOP" = lowerStr "jane-shop" := by
  decide

/-- The two line items of the C2 numeric test vector. -/
def c2Items : List OrderItem :=
  [{ product_id := "p1", name := "A", price := 100.005, quantity := 2 },
   { product_id := "p2", name := "B", price := 50, quantity := 1 }]

/-- The C2 checkout request. -/
def c2Req : CheckoutRequest :=
  { store_slug := "shop", items := c2Items,
    customer := { phone := "254711111111" } }

/-- Two line items on which sum-then-round and round-then-sum differ. -/
def roundOrderItems : List OrderItem :=
  [{ product_id := "q1", name := "C", price := 0.004, quantity := 1 },
   { product_id := "q2", name := "D", price := 0.004, quantity := 1 }]

/-- C2: the persisted order's total is `round2` applied once to the sum of
the line products (sum-then-round); on the test vector
[{price:100.005, quantity:2}, {price:50, quantity:1}] the persisted total
is 250.01; and on `roundOrderItems` sum-then-round (what the code computes)
differs from round-then-sum, witnessing that the rounding is applied to the
accumulated sum and not per line. -/
theorem C2_total_sum_then_round (sinkOk : Bool) (db : DB)
    (p : CheckoutRequest) (h : db.FreshOrderId) :
    (∃ o : Order,
      (checkout sinkOk db p).2.orders = db.orders ++ [(db.freshId, o)] ∧
      o.total =
        round2 ((p.items.map (fun it => it.price * (it.quantity : ℚ))).sum)) ∧
    ((checkout true {} c2Req).2.orders.map (fun kv => kv.2.total)) =
      [250.01] ∧
    round2 ((roundOrderItems.map
        (fun it => it.price * (it.quantity : ℚ))).sum) = 0.01 ∧
    ((roundOrderItems.map
        (fun it => round2 (it.price * (it.quantity : ℚ)))).sum) = 0 := by
  refine ⟨⟨setPaid (mkPendingOrder p), checkout_orders sinkOk db p h, ?_⟩,
    ?_, ?_, ?_⟩
  · simp [setPaid, mkPendingOrder, orderTotalRaw_eq_sum]
  · norm_num [checkout, c2Req, c2Items, mkPendingOrder, setPaid,
      updateFirstOrder, create_document, orderTotalRaw, round2, round_eq,
      DB.freshId]
  · norm_num [roundOrderItems, round2, round_eq]
  · norm_num [roundOrderItems, round2, round_eq]

/-- Witness for C2 at `db = {}`, `p = c2Req`. -/
theorem C2_witness :
    (∃ o : Order,
      (checkout true {} c2Req).2.orders =
        ({} : DB).orders ++ [(({} : DB).freshId, o)] ∧
      o.total =
        round2 ((c2Req.items.map
          (fun it => it.price * (it.quantity : ℚ))).sum)) ∧
    ((checkout true {} c2Req).2.orders.map (fun kv => kv.2.total)) =
      [250.01] ∧
    round2 ((roundOrderItems.map
        (fun it => it.price * (it.quantity : ℚ))).sum) = 0.01 ∧
    ((roundOrderItems.map
        (fun it => round2 (it.price * (it.quantity : ℚ)))).sum) = 0 :=
  C2_total_sum_then_round true {} c2Req (by decide)

/-- C3: for every schema-valid checkout the order is built with
status=pending and empty mpesa map and a lowercased store slug, persisted,
then the single keyed update of the always-succeeding mock gateway turns
exactly that entry into the paid order, which differs from the pending one
only in `status` and `mpesa`; and the end-to-end scenario
signup → createStore → createProduct → checkout("JANE-SHOP", …) yields an
order with total 60.0, status "paid", mpesa success, and store slug
"jane-shop". -/
theorem C3_pending_then_paid_scenario (db : DB) (p : CheckoutRequest)
    (hv : validateCheckoutRequest p = true) (hf : db.FreshOrderId) :
    ((mkPendingOrder p).status = "pending" ∧
     (mkPendingOrder p).mpesa = [] ∧
     (mkPendingOrder p).store_slug = lowerStr p.store_slug) ∧
    (checkoutEndpoint true db p).2.orders =
      db.orders ++ [(db.freshId, setPaid (mkPendingOrder p))] ∧
    setPaid (mkPendingOrder p) =
      { mkPendingOrder p with
          status := "paid", mpesa := [("status", "success")] } ∧
    (checkoutEndpoint true db p).1 = .ok (db.freshId, "paid") ∧
    signup {} janeSignupReq = (.ok "0", janeDB1) ∧
    create_store janeDB1 janeStoreReq = (.ok "1", janeDB2) ∧
    create_product janeDB2 janeProdReq = (.ok "2", janeDB3) ∧
    (checkoutEndpoint true janeDB3 janeCheckoutReq).1 = .ok ("3", "paid") ∧
    ((checkoutEndpoint true janeDB3 janeCheckoutReq).2.orders.map
      (fun kv => (kv.1, kv.2.store_slug, kv.2.status, kv.2.mpesa))) =
      [("3", "jane-shop", "paid", [("status", "success")])] ∧
    ((checkoutEndpoint true janeDB3 janeCheckoutReq).2.orders.map
      (fun kv => kv.2.total)) = [60.0] := by
  refine ⟨⟨rfl, rfl, rfl⟩, ?_, rfl, ?_, signup_jane, create_store_jane,
    create_product_jane, ?_, ?_, ?_⟩
  · simpa [checkoutEndpoint, hv] using checkout_orders true db p hf
  · simp [checkoutEndpoint, hv, checkout]
  · decide
  · decide
  · norm_num [checkoutEndpoint, checkout, validateCheckoutRequest, validItem,
      janeCheckoutReq, janeDB3, janeDB2, janeDB1, mkPendingOrder, setPaid,
      updateFirstOrder, create_document, orderTotalRaw, round2, round_eq,
      DB.freshId, lowerStr_JANESHOP]

/-- Witness for C3 at `db = {}`, `p = janeCheckoutReq`: the response of the
paid checkout, extracted from the instantiated theorem. -/
theorem C3_witness :
    (checkoutEndpoint true {} janeCheckoutReq).1 =
      .ok (({} : DB).freshId, "paid") :=
  (C3_pending_then_paid_scenario {} janeCheckoutReq (by decide)
    (by decide)).2.2.2.1

/-- A checkout request with an empty items sequence. -/
def emptyItemsReq : CheckoutRequest :=
  { store_slug := "shop", items := [],
    customer := { phone := "254711111111" } }

/-- C4 counterexample: the claim states that a checkout with an empty items
sequence fails with InvalidInput and creates no order.  The code has no
emptiness check: on an empty database the request passes validation, the
call succeeds with status "paid", and an order is persisted (with total
0.0), refuting the claim at this concrete input. -/
theorem C4_counterexample :
    (checkoutEndpoint true {} emptyItemsReq).1 = .ok ("0", "paid") ∧
    ((checkoutEndpoint true {} emptyItemsReq).2.orders.map
      (fun kv => kv.2.status)) = ["paid"] ∧
    ((checkoutEndpoint true {} emptyItemsReq).2.orders.map
      (fun kv => kv.2.total)) = [0] := by
  refine ⟨by decide, by decide, ?_⟩
  norm_num [checkoutEndpoint, checkout, validateCheckoutRequest,
    emptyItemsReq, mkPendingOrder, setPaid, updateFirstOrder,
    create_document, orderTotalRaw, round2, DB.freshId]

/-- C4 amended: checkout performs no emptiness check on the items sequence:
every request with an empty items list passes the schema validation, the
call succeeds with status "paid", and an order with total 0.0 is
persisted. -/
theorem C4_amended (db : DB) (p : CheckoutRequest)
    (he : p.items = []) (hf : db.FreshOrderId) :
    (checkoutEndpoint true db p).1 = .ok (db.freshId, "paid") ∧
    (checkoutEndpoint true db p).2.orders =
      db.orders ++ [(db.freshId, setPaid (mkPendingOrder p))] ∧
    (setPaid (mkPendingOrder p)).total = 0 := by
  have hv : validateCheckoutRequest p = true := by
    simp [validateCheckoutRequest, he]
  refine ⟨?_, ?_, ?_⟩
  · simp [checkoutEndpoint, hv, checkout]
  · simpa [checkoutEndpoint, hv] using checkout_orders true db p hf
  · simp [setPaid, mkPendingOrder, he, orderTotalRaw, round2]

/-- Witness for C4 amended at `db = {}`, `p = emptyItemsReq`. -/
theorem C4_witness :
    (checkoutEndpoint true {} emptyItemsReq).1 = .ok ("0", "paid") ∧
    (checkoutEndpoint true {} emptyItemsReq).2.orders =
      ({} : DB).orders ++
        [(({} : DB).freshId, setPaid (mkPendingOrder emptyItemsReq))] ∧
    (setPaid (mkPendingOrder emptyItemsReq)).total = 0 :=
  C4_amended {} emptyItemsReq rfl (by decide)

/-- A checkout request containing an item with a negative price. -/
def negPriceReq : CheckoutRequest :=
  { store_slug := "shop",
    items := [{ product_id := "p", name := "N", price := -5, quantity := 1 }],
    customer := { phone := "254711111111" } }

/-- A checkout request containing an item with quantity 0. -/
def zeroQtyReq : CheckoutRequest :=
  { store_slug := "shop",
    items := [{ product_id := "p", name := "N", price := 10, quantity := 0 }],
    customer := { phone := "254711111111" } }

/-- C5 counterexample: the claim states that a checkout containing an item
with price < 0 fails and creates no order.  `OrderItem.price` carries no
pydantic constraint (only `Product.price` does), so the request with price
-5 passes validation, the call succeeds with status "paid", and an order is
persisted, refuting the claim at this concrete input. -/
theorem C5_counterexample :
    (checkoutEndpoint true {} negPriceReq).1 = .ok ("0", "paid") ∧
    ((checkoutEndpoint true {} negPriceReq).2.orders.map
      (fun kv => kv.2.status)) = ["paid"] := by
  decide

/-- C5 amended: the quantity half of the claim holds — every checkout
request containing an item with quantity < 1 is rejected by the pydantic
request validation (`Field(..., ge=1)`) with no order created — but the
price half does not: a request with a negative item price is accepted and
an order is persisted. -/
theorem C5_amended (sinkOk : Bool) (db : DB) (p : CheckoutRequest)
    (hq : ∃ it ∈ p.items, it.quantity < 1) :
    checkoutEndpoint sinkOk db p =
      (.error (.requestValidationError
        "quantity must be greater than or equal to 1"), db) ∧
    (checkoutEndpoint true {} negPriceReq).1 = .ok ("0", "paid") ∧
    ((checkoutEndpoint true {} negPriceReq).2.orders.map
      (fun kv => kv.2.status)) = ["paid"] := by
  refine ⟨?_, by decide, by decide⟩
  obtain ⟨it, hm, hlt⟩ := hq
  have hv : ¬ (validateCheckoutRequest p = true) := by
    simp only [validateCheckoutRequest, List.all_eq_true]
    intro hall
    have hit := hall it hm
    simp only [validItem, decide_eq_true_eq] at hit
    omega
  simp only [checkoutEndpoint]
  rw [if_neg hv]

/-- Witness for C5 amended at `db = {}`, `p = zeroQtyReq`. -/
theorem C5_witness :
    checkoutEndpoint true {} zeroQtyReq =
      (.error (.requestValidationError
        "quantity must be greater than or equal to 1"), {}) ∧
    (checkoutEndpoint true {} negPriceReq).1 = .ok ("0", "paid") ∧
    ((checkoutEndpoint true {} negPriceReq).2.orders.map
      (fun kv => kv.2.status)) = ["paid"] :=
  C5_amended true {} zeroQtyReq
    ⟨{ product_id := "p", name := "N", price := 10, quantity := 0 },
     by decide, by decide⟩

/-- C6 counterexample: the claim states that a failure raised by the
notification sink write does not fail the checkout call.  The source does
not guard `db["notification"].insert_one` with try/except, so the raised
exception propagates and the call fails, refuting the claim: here the
checkout of the scenario request with a failing sink returns the unhandled
sink exception instead of the paid response. -/
theorem C6_counterexample :
    (checkout false janeDB3 janeCheckoutReq).1 = .error .sinkFailure := by
  decide

/-- C6 amended: when the notification sink write raises after the order has
been persisted and transitioned to paid, the exception propagates and fails
the checkout call, but nothing is rolled back: the order remains persisted
with status "paid" and mpesa success metadata. -/
theorem C6_amended (db : DB) (p : CheckoutRequest) (hf : db.FreshOrderId) :
    (checkout false db p).1 = .error .sinkFailure ∧
    (checkout false db p).2.orders =
      db.orders ++ [(db.freshId, setPaid (mkPendingOrder p))] ∧
    (setPaid (mkPendingOrder p)).status = "paid" ∧
    (setPaid (mkPendingOrder p)).mpesa = [("status", "success")] :=
  ⟨rfl, checkout_orders false db p hf, rfl, rfl⟩

/-- Witness for C6 amended at `db = janeDB3`, `p = janeCheckoutReq`. -/
theorem C6_witness :
    (checkout false janeDB3 janeCheckoutReq).1 = .error .sinkFailure ∧
    (checkout false janeDB3 janeCheckoutReq).2.orders =
      janeDB3.orders ++
        [(janeDB3.freshId, setPaid (mkPendingOrder janeCheckoutReq))] ∧
    (setPaid (mkPendingOrder janeCheckoutReq)).status = "paid" ∧
    (setPaid (mkPendingOrder janeCheckoutReq)).mpesa =
      [("status", "success")] :=
  C6_amended janeDB3 janeCheckoutReq (by decide)

/-- A seller whose whatsapp number differs from their phone. -/
def ownerWithWhatsapp : Seller :=
  { name := "Jane", email := none, phone := "254700000000",
    whatsapp_number := some "254722222222" }

/-- A database holding only `ownerWithWhatsapp`. -/
def c7DB : DB := { sellers := [("0", ownerWithWhatsapp)], nextId := 1 }

/-- A store-creation request that explicitly supplies the empty string as
whatsapp number. -/
def c7Req : CreateStoreRequest :=
  { owner_id := "0", name := "Shop", slug := "shop",
    whatsapp_number := some "" }

/-- C7 counterexample: the claim states that the persisted store's
whatsapp_number equals the explicitly supplied value when one was given
(first non-absent wins).  The code combines the candidates with Python
`or`, which treats the empty string as absent: with an explicitly supplied
`""` the persisted value is the owner's whatsapp number, not the supplied
value, refuting the claim at this concrete input. -/
theorem C7_counterexample :
    (create_store c7DB c7Req).1 = .ok "1" ∧
    ((create_store c7DB c7Req).2.stores.map
      (fun kv => kv.2.whatsapp_number)) = [some "254722222222"] ∧
    c7Req.whatsapp_number = some "" ∧
    (some "" : Option String) ≠ some "254722222222" := by
  decide

/-- C7 amended: for every successful `create_store`, the persisted store's
whatsapp_number is the first non-absent AND non-empty candidate among the
explicitly supplied value, the owner's whatsapp_number, and the owner's
phone (Python truthiness: `None` and `""` both fall through); the owner's
phone is used verbatim as the last resort. -/
theorem C7_amended (db : DB) (p : CreateStoreRequest) (oid : String)
    (owner : Seller)
    (hu : ensure_unique_slug db p.slug = .ok ())
    (ho : findOne db.sellers (fun kv => kv.1 == p.owner_id) =
      some (oid, owner)) :
    ∃ st : Store,
      (create_store db p).1 = .ok db.freshId ∧
      (create_store db p).2.stores = db.stores ++ [(db.freshId, st)] ∧
      st.whatsapp_number =
        pyOr p.whatsapp_number
          (pyOr owner.whatsapp_number (some owner.phone)) ∧
      (∀ s, p.whatsapp_number = some s → s ≠ "" →
        st.whatsapp_number = some s) ∧
      (optTruthy p.whatsapp_number = false →
        ∀ t, owner.whatsapp_number = some t → t ≠ "" →
          st.whatsapp_number = some t) ∧
      (optTruthy p.whatsapp_number = false →
        optTruthy owner.whatsapp_number = false →
        st.whatsapp_number = some owner.phone) := by
  refine ⟨{ owner_id := p.owner_id, name := p.name, slug := lowerStr p.slug,
            description := p.description,
            whatsapp_number :=
              pyOr p.whatsapp_number
                (pyOr owner.whatsapp_number (some owner.phone)) },
    ?_, ?_, rfl, ?_, ?_, ?_⟩
  · simp [create_store, hu, ho]
  · simp [create_store, hu, ho, create_document]
  · intro s hs hne
    simp [pyOr, optTruthy, hs, hne]
  · intro hfalse t ht hne
    simp only [pyOr, hfalse]
    simp [optTruthy, ht, hne]
  · intro hfalse hfalse2
    simp [pyOr, hfalse, hfalse2]

/-- Witness for C7 amended at `db = c7DB`, `p = c7Req`. -/
theorem C7_witness :
    ∃ st : Store,
      (create_store c7DB c7Req).1 = .ok c7DB.freshId ∧
      (create_store c7DB c7Req).2.stores =
        c7DB.stores ++ [(c7DB.freshId, st)] ∧
      st.whatsapp_number =
        pyOr c7Req.whatsapp_number
          (pyOr ownerWithWhatsapp.whatsapp_number
            (some ownerWithWhatsapp.phone)) ∧
      (∀ s, c7Req.whatsapp_number = some s → s ≠ "" →
        st.whatsapp_number = some s) ∧
      (optTruthy c7Req.whatsapp_number = false →
        ∀ t, ownerWithWhatsapp.whatsapp_number = some t → t ≠ "" →
          st.whatsapp_number = some t) ∧
      (optTruthy c7Req.whatsapp_number = false →
        optTruthy ownerWithWhatsapp.whatsapp_number = false →
        st.whatsapp_number = some ownerWithWhatsapp.phone) :=
  C7_amended c7DB c7Req "0" ownerWithWhatsapp (by decide) (by decide)

/-- A store used by the C8 witness state. -/
def shopStore : Store :=
  { owner_id := "0", name := "Shop", slug := "shop", description := none,
    whatsapp_number := some "254700000000" }

/-- An active product of the "shop" store. -/
def activeProd : Product :=
  { store_slug := "shop", name := "A", price := 5, description := none,
    image_url := none, is_active := true }

/-- An inactive product of the "shop" store. -/
def inactiveProd : Product :=
  { store_slug := "shop", name := "B", price := 7, description := none,
    image_url := none, is_active := false }

/-- A database holding one store with one active and one inactive
product. -/
def c8DB : DB :=
  { stores := [("0", shopStore)],
    products := [("1", activeProd), ("2", inactiveProd)], nextId := 3 }

/-- C8: for every store slug and every state of the product collection,
`list_products` returns only products with `is_active = true` whose store
slug equals the lowercased query slug; and when no product carries the
lowercased slug — in particular when the store does not exist — the result
is the empty sequence (the function is total, so never an error). -/
theorem C8_active_only (db : DB) (slug : String) :
    (∀ pr ∈ list_products db slug,
      pr.is_active = true ∧ pr.store_slug = lowerStr slug) ∧
    ((∀ kv ∈ db.products, kv.2.store_slug ≠ lowerStr slug) →
      list_products db slug = []) := by
  constructor
  · intro pr hm
    simp only [list_products, get_documents_product, List.mem_map,
      List.mem_filter] at hm
    obtain ⟨kv, ⟨hmem, hcond⟩, rfl⟩ := hm
    simp only [Bool.and_eq_true, beq_iff_eq] at hcond
    exact ⟨hcond.2, hcond.1⟩
  · intro h
    simp only [list_products, get_documents_product]
    rw [List.filter_eq_nil_iff.mpr, List.map_nil]
    intro kv hmem
    simp only [Bool.and_eq_true, beq_iff_eq, not_and]
    intro hslug
    exact absurd hslug (h kv hmem)

/-- Witness for C8 at the concrete state `c8DB`: the one active product of
the mixed-case query slug satisfies the filter properties, and a slug
matching no product yields the empty sequence. -/
theorem C8_witness :
    (activeProd.is_active = true ∧
      activeProd.store_slug = lowerStr "SHOP") ∧
    list_products c8DB "missing" = [] :=
  ⟨(C8_active_only c8DB "SHOP").1 activeProd (by decide),
   (C8_active_only c8DB "missing").2 (by decide)⟩

/-- A product-creation request with a negative price for an existing
store. -/
def negProdReq : CreateProductRequest :=
  { store_slug := "jane-shop", name := "Bad", price := -1 }

/-- C9 counterexample: the claim states that whenever the lowercased
store_slug resolves to an existing store, `create_product` succeeds.  But
`Product.price` carries the pydantic constraint `ge=0`, so with an existing
store and price -1 the model construction raises inside the handler: the
call fails and no product is persisted, refuting the "otherwise it
succeeds" half at this concrete input. -/
theorem C9_counterexample :
    (create_product janeDB2 negProdReq).1 =
      .error (.modelValidationError
        "price must be greater than or equal to 0") ∧
    (create_product janeDB2 negProdReq).2 = janeDB2 := by
  decide

/-- C9 amended: when the lowercased store_slug does not resolve,
`create_product` fails with NotFound and persists nothing; when it resolves
and the price is non-negative, the call succeeds and persists a product
with `is_active = true` and the lowercased store_slug; when it resolves and
the price is negative, the pydantic model validation rejects the product
and nothing is persisted. -/
theorem C9_amended (db : DB) (p : CreateProductRequest) :
    (findOne db.stores (fun kv => kv.2.slug == lowerStr p.store_slug) =
        none →
      create_product db p = (.error (.httpError 404 "Store not found"), db)) ∧
    (∀ sid st,
      findOne db.stores (fun kv => kv.2.slug == lowerStr p.store_slug) =
        some (sid, st) →
      0 ≤ p.price →
      (create_product db p).1 = .ok db.freshId ∧
      (create_product db p).2.products = db.products ++
        [(db.freshId,
          { store_slug := lowerStr p.store_slug, name := p.name,
            price := p.price, description := p.description,
            image_url := p.image_url, is_active := true })]) ∧
    (∀ sid st,
      findOne db.stores (fun kv => kv.2.slug == lowerStr p.store_slug) =
        some (sid, st) →
      p.price < 0 →
      (create_product db p).1 =
        .error (.modelValidationError
          "price must be greater than or equal to 0") ∧
      (create_product db p).2 = db) := by
  refine ⟨?_, ?_, ?_⟩
  · intro h
    simp [create_product, h]
  · intro sid st h hp
    have hneg : ¬ (p.price < 0) := not_lt.mpr hp
    simp [create_product, h, mkProduct, hneg, create_document]
  · intro sid st h hp
    simp [create_product, h, mkProduct, hp]

/-- Witness for C9 amended: on an empty database the scenario product
request fails with NotFound, and on `janeDB2` it succeeds. -/
theorem C9_witness :
    create_product {} janeProdReq =
      (.error (.httpError 404 "Store not found"), ({} : DB)) ∧
    (create_product janeDB2 janeProdReq).1 = .ok janeDB2.freshId :=
  ⟨(C9_amended {} janeProdReq).1 (by decide),
   ((C9_amended janeDB2 janeProdReq).2.1 "1" janeStore (by decide)
     (by norm_num [janeProdReq])).1⟩

/-- C10: checkout never consults the store collection: for every
schema-valid request whose (lowercased) store slug matches no persisted
store, the call still succeeds with status "paid", persisting an order
whose store_slug references a store that does not exist (the store
collection is left unchanged). -/
theorem C10_no_store_check (db : DB) (p : CheckoutRequest)
    (hv : validateCheckoutRequest p = true) (hf : db.FreshOrderId)
    (hns : ∀ kv ∈ db.stores, kv.2.slug ≠ lowerStr p.store_slug) :
    (checkoutEndpoint true db p).1 = .ok (db.freshId, "paid") ∧
    (checkoutEndpoint true db p).2.orders =
      db.orders ++ [(db.freshId, setPaid (mkPendingOrder p))] ∧
    (setPaid (mkPendingOrder p)).store_slug = lowerStr p.store_slug ∧
    (setPaid (mkPendingOrder p)).status = "paid" ∧
    ∀ kv ∈ (checkoutEndpoint true db p).2.stores,
      kv.2.slug ≠ (setPaid (mkPendingOrder p)).store_slug := by
  refine ⟨?_, ?_, rfl, rfl, ?_⟩
  · simp [checkoutEndpoint, hv, checkout]
  · simpa [checkoutEndpoint, hv] using checkout_orders true db p hf
  · intro kv hm
    have hst : (checkoutEndpoint true db p).2.stores = db.stores := by
      simp [checkoutEndpoint, hv, checkout_stores]
    rw [hst] at hm
    simpa [setPaid, mkPendingOrder] using hns kv hm

/-- Witness for C10 at the empty database (which has no store at all) and
the scenario checkout request. -/
theorem C10_witness :
    (checkoutEndpoint true {} janeCheckoutReq).1 = .ok ("0", "paid") ∧
    (setPaid (mkPendingOrder janeCheckoutReq)).store_slug =
      lowerStr janeCheckoutReq.store_slug :=
  ⟨(C10_no_store_check {} janeCheckoutReq (by decide) (by decide)
      (by decide)).1,
   (C10_no_store_check {} janeCheckoutReq (by decide) (by decide)
      (by decide)).2.2.1⟩

end Microstore
